import Mathlib

/-!
# Verification of the golang-book-ru content-pipeline scripts

A shallow embedding, in Lean 4, of the Node.js content-pipeline utilities of
the `golang-book-ru` repository (quality checker, structure validator, config
loader, content builder, godojo exporter/validator), together with theorems
settling the specification claims about them.

Text is modelled as `List Char`; every JavaScript regex operation used by the
scripts is translated into an explicit, executable scanner with the same
match semantics (leftmost match, lazy/greedy quantifiers, global continuation
after the match end).  File-system reads are modelled as pure inputs: each
run is a function of a world value describing what the script would read.
-/

namespace GolangBook

/-- Text, as a list of characters (JS strings are processed char-by-char). -/
abbrev Str := List Char

/-- JS `\s` whitespace class, restricted to the code points occurring in the
repository's content (space, tab, LF, CR, VT, FF, NBSP, BOM). -/
def jsWs (c : Char) : Bool :=
  c = ' ' || c = '\t' || c = '\n' || c = '\r' ||
  c = '\x0b' || c = '\x0c' || c.val = 0xa0 || c.val = 0xfeff

/-- Core of `wordRuns`: counts maximal runs of non-whitespace characters.
The flag records whether the previous character belonged to a word. -/
def wordRunsAux : Bool → Str → Nat
  | _, [] => 0
  | inWord, c :: cs =>
    if jsWs c then wordRunsAux false cs
    else (if inWord then 0 else 1) + wordRunsAux true cs

/-- `text.split(/\s+/).filter(w => w.length > 0).length`: the number of
maximal non-whitespace runs in the text. -/
def wordRuns (s : Str) : Nat := wordRunsAux false s

/-- Index of the first occurrence of `pat` as a contiguous substring of `s`
(the position a JS `String.indexOf`/regex literal search would report). -/
def firstIdxOf (pat : Str) : Str → Option Nat
  | [] => if pat.isPrefixOf ([] : Str) then some 0 else none
  | c :: cs =>
    if pat.isPrefixOf (c :: cs) then some 0
    else (firstIdxOf pat cs).map (· + 1)

/-- Whether `pat` occurs as a contiguous substring of `s`
(JS `s.includes(pat)`). -/
def containsSub (s pat : Str) : Bool := (firstIdxOf pat s).isSome

/-- Three backticks, the fence delimiter. -/
def bt3 : Str := ['`', '`', '`']

/-- Three dashes, the front-matter delimiter. -/
def dash3 : Str := ['-', '-', '-']

/-- `text.replace(/```[\s\S]*?```/g, '')`: removes every fenced block, where
a block opens at a `` ``` `` and closes at the earliest following `` ``` ``;
scanning resumes after the closing fence.  A `` ``` `` with no closing fence
is left in place (the regex has no further match).  `fuel` bounds the number
of removed blocks; callers pass the text length, which always suffices. -/
def stripFencedBlocksAux : Nat → Str → Str
  | 0, s => s
  | fuel + 1, s =>
    match firstIdxOf bt3 s with
    | none => s
    | some p =>
      let rest := s.drop (p + 3)
      match firstIdxOf bt3 rest with
      | none => s
      | some q => s.take p ++ stripFencedBlocksAux fuel (rest.drop (q + 3))

/-- All fenced code blocks removed (see `stripFencedBlocksAux`). -/
def stripFencedBlocks (s : Str) : Str := stripFencedBlocksAux s.length s

/-! Source: `scripts/content-author.js` (`part_003`), classes
`ConfigManager` / `ContentValidator` / `ContentAuthor`. -/

namespace ContentAuthor

/-- The `quality` section of `content.config.json`
(`ConfigSchema.quality`): minimum word / code-example / exercise counts. -/
structure QualityStandards where
  minWords : Nat
  minCodeExamples : Nat
  minExercises : Nat

/-- `content.replace(/^---[\s\S]*?---\n/, '')` from
`ContentValidator.#countWords`: when the text starts with `---` and the
four-character sequence `---\n` occurs at or after index 3, everything up to
and including the earliest such occurrence is dropped (the lazy quantifier
selects the earliest closing delimiter); otherwise the text is unchanged. -/
def stripAnchoredFrontmatter (s : Str) : Str :=
  if dash3.isPrefixOf s then
    match firstIdxOf ['-', '-', '-', '\n'] (s.drop 3) with
    | some i => s.drop (3 + i + 4)
    | none => s
  else s

/-- `ContentValidator.#countWords`: strip the leading front-matter block,
strip fenced code blocks, then count whitespace-separated words. -/
def countWords (content : Str) : Nat :=
  let noFM := stripAnchoredFrontmatter content
  wordRuns (stripFencedBlocks noFM)

/-- The opening delimiter of a Go-tagged fenced block. -/
def goFence : Str := ['`', '`', '`', 'g', 'o']

/-- `(content.match(/```go[\s\S]*?```/g) || []).length` from
`ContentValidator.#countCodeExamples`: counts non-overlapping matches, each
opening at a `` ```go `` and closing at the earliest following `` ``` ``. -/
def countGoBlocksAux : Nat → Str → Nat
  | 0, _ => 0
  | fuel + 1, s =>
    match firstIdxOf goFence s with
    | none => 0
    | some p =>
      let rest := s.drop (p + 5)
      match firstIdxOf bt3 rest with
      | none => 0
      | some q => 1 + countGoBlocksAux fuel (rest.drop (q + 3))

/-- `ContentValidator.#countCodeExamples`. -/
def countCodeExamples (content : Str) : Nat :=
  countGoBlocksAux content.length content

/-- The literal part of the exercise-heading pattern
`/### Упражнение \d+:/`. -/
def exerciseHeader : Str := "### Упражнение ".toList

/-- Splits off a maximal run of leading ASCII digits. -/
def takeDigits : Str → Str × Str
  | [] => ([], [])
  | c :: cs =>
    if c.isDigit then
      let (d, r) := takeDigits cs
      (c :: d, r)
    else ([], c :: cs)

/-- `(content.match(/### Упражнение \d+:/g) || []).length` from
`ContentValidator.#countExercises`: counts non-overlapping matches of the
header text followed by one or more digits and a colon. -/
def countExercisesAux : Nat → Str → Nat
  | 0, _ => 0
  | fuel + 1, s =>
    match firstIdxOf exerciseHeader s with
    | none => 0
    | some p =>
      let rest := s.drop (p + exerciseHeader.length)
      match takeDigits rest with
      | (_ :: _, ':' :: r) => 1 + countExercisesAux fuel r
      | _ => countExercisesAux fuel rest

/-- `ContentValidator.#countExercises`. -/
def countExercises (content : Str) : Nat :=
  countExercisesAux content.length content

/-- One entry of the `errors` array accumulated by
`ContentValidator.validateContent` (the interpolated message strings are
represented structurally; each constructor records the numbers that the
corresponding template string interpolates). -/
inductive CVError where
  | wordCount (found min : Nat)
  | codeExamples (found min : Nat)
  | exercises (found min : Nat)
deriving DecidableEq

/-- `ContentValidator.validateContent`, on file content that was read
successfully: the accumulated `errors` array, in push order.  The source
throws a `ValidationError` (severity: error, not warning) exactly when this
list is non-empty. -/
def validateContent (std : QualityStandards) (content : Str) : List CVError :=
  let wc := countWords content
  let ce := countCodeExamples content
  let ex := countExercises content
  (if wc < std.minWords then [CVError.wordCount wc std.minWords] else []) ++
  (if ce < std.minCodeExamples then
      [CVError.codeExamples ce std.minCodeExamples] else []) ++
  (if ex < std.minExercises then [CVError.exercises ex std.minExercises] else [])

end ContentAuthor

/-- Splits text into its lines at `'\n'` (a trailing newline yields a final
empty line, as JS `split('\n')` does). -/
def splitLines : Str → List Str
  | [] => [[]]
  | '\n' :: cs => [] :: splitLines cs
  | c :: cs =>
    match splitLines cs with
    | l :: ls => (c :: l) :: ls
    | [] => [[c]]

/-- Splits off the segment before the first occurrence of `stop`, returning
it with the remainder after `stop`; `none` when `stop` does not occur. -/
def takeUntil (stop : Char) : Str → Option (Str × Str)
  | [] => none
  | c :: cs =>
    if c = stop then some ([], cs)
    else
      match takeUntil stop cs with
      | some (seg, rest) => some (c :: seg, rest)
      | none => none

/-- JS truthiness of an optional string field (`undefined` and `""` are
falsy). -/
def truthyStr : Option String → Bool
  | none => false
  | some s => !(s = "")

/-- JS truthiness of an optional numeric field (`undefined` and `0` are
falsy). -/
def truthyNum : Option Int → Bool
  | none => false
  | some n => !(n = 0)

/-! Source: `scripts/content-checker.js`, class `ContentChecker`. -/

namespace ContentChecker

/-- The front-matter fields `ContentChecker` inspects, as delivered by
`gray-matter`; `none` models an absent key.  JS truthiness makes the empty
string and the number `0` behave like absent values (`truthyStr`,
`truthyNum`). -/
structure Frontmatter where
  title : Option String
  description : Option String
  authorId : Option String
  category : Option String
  estimatedMinutes : Option Int

/-- The message of one `addIssue`/`addWarning` call, represented
structurally; each constructor records exactly the data the corresponding
template string interpolates. -/
inductive Msg where
  | missingField (field : String)
  | shortDescription
  | unusualMinutes
  | lowWordCount (found : Nat)
  | fewHeadings
  | todoFound
  | loremIpsum
  | missingSection (heading : String)
  | fewCodeExamples (found : Nat)
  | noPackageDecl (idx : Nat)
  | noErrorCheck (idx : Nat)
  | brokenLink (target : String)
  | invalidURL (url : String)
  | readFailed
deriving DecidableEq

/-- One entry of `this.issues` / `this.warnings`: the file path and the
message. -/
structure Finding where
  file : String
  msg : Msg
deriving DecidableEq

/-- The `requiredFields` loop data of `ContentChecker.checkFrontmatter`, in
source order. -/
def requiredFields (fm : Frontmatter) : List (String × Option String) :=
  [("title", fm.title), ("description", fm.description),
   ("authorId", fm.authorId), ("category", fm.category)]

/-- `ContentChecker.checkFrontmatter`: an issue per falsy required field; a
warning for a short description (under 50 characters, only when the
description is truthy) and for an unusual `estimatedMinutes` (outside 5..120,
only when truthy).  Returns `(issues, warnings)` in push order. -/
def checkFrontmatter (fm : Frontmatter) (path : String) :
    List Finding × List Finding :=
  ((requiredFields fm).filterMap fun fv =>
      if truthyStr fv.2 then none else some ⟨path, Msg.missingField fv.1⟩,
   (match fm.description with
    | some d => if !(d = "") && d.length < 50 then [⟨path, Msg.shortDescription⟩] else []
    | none => []) ++
   (match fm.estimatedMinutes with
    | some m =>
      if !(m = 0) && (m < 5 || m > 120) then [⟨path, Msg.unusualMinutes⟩] else []
    | none => []))

/-- Whether a line matches `/^#{1,6}\s+.+$/`: one to six leading `#`
characters, then at least one whitespace character, then at least one further
character.  (The JS pattern's `\s+` could also swallow the newline of a
hash-only line and match into the next line; the per-line reading used here
coincides with it on every line that carries text after its hashes.) -/
def lineIsHeading (l : Str) : Bool :=
  let k := (l.takeWhile (· = '#')).length
  decide (1 ≤ k) && decide (k ≤ 6) &&
    match l.drop k with
    | w :: rest => jsWs w && !rest.isEmpty
    | [] => false

/-- `(markdown.match(/^#{1,6}\s+.+$/gm) || []).length`: the number of heading
lines. -/
def headingsCount (md : Str) : Nat :=
  ((splitLines md).filter lineIsHeading).length

/-- Case-insensitive prefix test (ASCII folding, as JS `/i` does for the
Latin pattern letters involved). -/
def isPrefixCI : Str → Str → Bool
  | [], _ => true
  | _ :: _, [] => false
  | p :: ps, c :: cs => (c.toLower = p.toLower) && isPrefixCI ps cs

/-- Whether `/lorem\s+ipsum/i` matches at the head of the text. -/
def loremAt (s : Str) : Bool :=
  isPrefixCI "lorem".toList s &&
    (let rest := s.drop 5
     let ws := (rest.takeWhile jsWs).length
     decide (1 ≤ ws) && isPrefixCI "ipsum".toList (rest.drop ws))

/-- `/lorem\s+ipsum/i.test(markdown)`. -/
def loremTest : Str → Bool
  | [] => false
  | c :: cs => loremAt (c :: cs) || loremTest cs

/-- `ContentChecker.checkContent`: a (blocking) issue when the raw body has
fewer than 800 whitespace-separated words — note the source does **not**
strip fenced code blocks here — and when placeholder text is found; warnings
for fewer than three headings and for a literal `TODO`. -/
def checkContent (md : Str) (path : String) : List Finding × List Finding :=
  ((if wordRuns md < 800 then [⟨path, Msg.lowWordCount (wordRuns md)⟩] else []) ++
   (if loremTest md then [⟨path, Msg.loremIpsum⟩] else []),
   (if headingsCount md < 3 then [⟨path, Msg.fewHeadings⟩] else []) ++
   (if containsSub md "TODO".toList then [⟨path, Msg.todoFound⟩] else []))

/-- The four section headings `ContentChecker.checkStructure` requires. -/
def requiredSections : List String :=
  ["## 🎯 Что вы изучите", "## 📚 Теоретическая часть",
   "## 💻 Практические примеры", "## 🎯 Практические упражнения"]

/-- `ContentChecker.checkStructure`: a warning per absent section heading. -/
def checkStructure (md : Str) (path : String) : List Finding × List Finding :=
  ([],
   requiredSections.filterMap fun sec =>
     if containsSub md sec.toList then none
     else some ⟨path, Msg.missingSection sec⟩)

/-- The opening delimiter of a Go-tagged fenced block. -/
def goFence : Str := ['`', '`', '`', 'g', 'o']

/-- `markdown.match(/```go[\s\S]*?```/g) || []`: the list of matched block
texts (delimiters included); each match opens at a `` ```go `` and closes at
the earliest following `` ``` ``, and scanning resumes after the close. -/
def goBlocksAux : Nat → Str → List Str
  | 0, _ => []
  | fuel + 1, s =>
    match firstIdxOf goFence s with
    | none => []
    | some p =>
      let rest := (s.drop p).drop 5
      match firstIdxOf bt3 rest with
      | none => []
      | some q => (goFence ++ rest.take (q + 3)) :: goBlocksAux fuel (rest.drop (q + 3))

/-- All ```` ```go ```` blocks of a text. -/
def goBlocks (md : Str) : List Str := goBlocksAux md.length md

/-- `block.replace(/```go\n?/, '').replace(/\n?```/, '')`: strips the
delimiters from a matched block (the leading `` ```go `` with an optional
newline, then the leftmost occurrence of an optional newline followed by
`` ``` ``). -/
def codeOfBlock (block : Str) : Str :=
  let s0 := block.drop 5
  let s := if s0.head? = some '\n' then s0.drop 1 else s0
  match firstIdxOf bt3 s with
  | none => s
  | some q =>
    if decide (0 < q) && (s.getD (q - 1) 'x' = '\n') then
      s.take (q - 1) ++ s.drop (q + 3)
    else
      s.take q ++ s.drop (q + 3)

/-- `ContentChecker.checkCodeExamples`: a (blocking) issue when fewer than
three Go blocks are present; per-block warnings for a missing
`package ` declaration and for unchecked errors. -/
def checkCodeExamples (md : Str) (path : String) : List Finding × List Finding :=
  let blocks := goBlocks md
  ((if blocks.length < 3 then [⟨path, Msg.fewCodeExamples blocks.length⟩] else []),
   blocks.enum.flatMap fun ib =>
     let code := codeOfBlock ib.2
     (if containsSub code "package ".toList then []
      else [⟨path, Msg.noPackageDecl (ib.1 + 1)⟩]) ++
     (if containsSub code "err :=".toList &&
         !containsSub code "if err != nil".toList then
        [⟨path, Msg.noErrorCheck (ib.1 + 1)⟩]
      else []))

/-- A markdown link `[text](target)` matched at the head of the text:
returns the link text, the target and the remainder after the closing
parenthesis.  Both bracketed segments are non-empty and stop at the first
closing delimiter, mirroring `[^\]]+` and `[^)]+`. -/
def matchLinkAt : Str → Option (Str × Str × Str)
  | '[' :: cs =>
    match takeUntil ']' cs with
    | some (text, '(' :: cs2) =>
      if text.isEmpty then none
      else
        match takeUntil ')' cs2 with
        | some (target, rest) =>
          if target.isEmpty then none else some (text, target, rest)
        | none => none
    | _ => none
  | _ => none

/-- Captured targets of `/\[([^\]]+)\]\((?!http)([^)]+)\)/g`: link targets
not beginning with `http` (the negative lookahead); on a failed match the
scan advances one position, on a success it resumes after the match.  (The
source re-extracts the target from the matched text with a second
parenthesis regex, which returns the same capture unless the link text
itself contains a parenthesis.) -/
def internalLinksAux : Nat → Str → List Str
  | 0, _ => []
  | _ + 1, [] => []
  | fuel + 1, c :: cs =>
    match matchLinkAt (c :: cs) with
    | some (_, target, rest) =>
      if "http".toList.isPrefixOf target then internalLinksAux fuel cs
      else target :: internalLinksAux fuel rest
    | none => internalLinksAux fuel cs

/-- Whether a captured target matches `https?:\/\/[^)]+` in full, i.e.
begins with `http://` or `https://` with at least one further character. -/
def isHttpUrl (t : Str) : Bool :=
  ("http://".toList.isPrefixOf t && decide (7 < t.length)) ||
  ("https://".toList.isPrefixOf t && decide (8 < t.length))

/-- Captured URLs of `/\[([^\]]+)\]\((https?:\/\/[^)]+)\)/g`. -/
def externalLinksAux : Nat → Str → List Str
  | 0, _ => []
  | _ + 1, [] => []
  | fuel + 1, c :: cs =>
    match matchLinkAt (c :: cs) with
    | some (_, target, rest) =>
      if isHttpUrl target then target :: externalLinksAux fuel rest
      else externalLinksAux fuel cs
    | none => externalLinksAux fuel cs

/-- `ContentChecker.checkLinks`: warnings for internal links whose target
(joined under `content/`) does not exist — the `existsSync` probe is the
oracle `linkExists` — and for external links rejected by the `new URL`
validity check, modelled by the oracle `urlValid`. -/
def checkLinks (md : Str) (path : String) (linkExists urlValid : String → Bool) :
    List Finding × List Finding :=
  ([],
   ((internalLinksAux md.length md).filterMap fun t =>
      if "#".toList.isPrefixOf t then none
      else if linkExists ("content/" ++ String.mk t) then none
      else some ⟨path, Msg.brokenLink (String.mk t)⟩) ++
   ((externalLinksAux md.length md).filterMap fun u =>
      if urlValid (String.mk u) then none
      else some ⟨path, Msg.invalidURL (String.mk u)⟩))

/-- `ContentChecker.checkFile`, as a function of the read outcome for one
file.  The front matter arrives already parsed (the YAML parsing inside
`gray-matter` is beyond the embedded fragment; its delimiter handling is
modelled separately by `graymatterSplit`); the catch clause turns a read
failure into a single issue. -/
def checkFile (path : String) (read : Except Unit (Frontmatter × Str))
    (linkExists urlValid : String → Bool) : List Finding × List Finding :=
  match read with
  | Except.error _ => ([⟨path, Msg.readFailed⟩], [])
  | Except.ok (fm, md) =>
    let r1 := checkFrontmatter fm path
    let r2 := checkContent md path
    let r3 := checkStructure md path
    let r4 := checkCodeExamples md path
    let r5 := checkLinks md path linkExists urlValid
    (r1.1 ++ r2.1 ++ r3.1 ++ r4.1 ++ r5.1,
     r1.2 ++ r2.2 ++ r3.2 ++ r4.2 ++ r5.2)

/-- What one `ContentChecker.run` invocation reads: whether `content/`
exists, the scanned files with their read outcomes, and the two file-system /
URL oracles used by `checkLinks`. -/
structure RunWorld where
  contentExists : Bool
  files : List (String × Except Unit (Frontmatter × Str))
  linkExists : String → Bool
  urlValid : String → Bool

/-- Outcome of a run: the accumulated findings and the process exit code. -/
structure RunResult where
  issues : List Finding
  warnings : List Finding
  exitCode : Nat

/-- A concrete quality-checker run world (an existing but empty content
tree). -/
def ccWorld0 : RunWorld :=
  { contentExists := true, files := [],
    linkExists := fun _ => true, urlValid := fun _ => true }

/-- `ContentChecker.run`: when `content/` is missing the method returns
without calling `process.exit`, so the Node process ends normally with code
0; otherwise every scanned file is checked and the process exits with
`this.issues.length > 0 ? 1 : 0`. -/
def run (w : RunWorld) : RunResult :=
  if w.contentExists then
    let results := w.files.map fun pr => checkFile pr.1 pr.2 w.linkExists w.urlValid
    let issues := results.flatMap Prod.fst
    { issues := issues,
      warnings := results.flatMap Prod.snd,
      exitCode := if 0 < issues.length then 1 else 0 }
  else
    { issues := [], warnings := [], exitCode := 0 }

end ContentChecker

/-- A parsed JSON value (`JSON.parse` output).  Numbers are modelled as
integers: every number occurring in the repository's configuration files and
schema bounds is integral.  Parsed objects carry their key/value pairs in
order; JSON.parse yields distinct keys. -/
inductive JValue where
  | null
  | bool (b : Bool)
  | num (n : Int)
  | str (s : String)
  | arr (elems : List JValue)
  | obj (fields : List (String × JValue))

/-- Object field lookup (`obj[name]`); `none` models `undefined`. -/
def getField : List (String × JValue) → String → Option JValue
  | [], _ => none
  | kv :: rest, name => if kv.1 = name then some kv.2 else getField rest name

/-- Property access on an arbitrary parsed value: only objects have the
configuration fields; on every other non-null value the access yields
`undefined`. -/
def topField (v : JValue) (name : String) : Option JValue :=
  match v with
  | JValue.obj fs => getField fs name
  | _ => none

/-- JS truthiness of a possibly-absent JSON value (`!config[section]`):
`undefined`, `null`, `false`, `0` and `""` are falsy; arrays and objects are
always truthy. -/
def truthyJ : Option JValue → Bool
  | none => false
  | some JValue.null => false
  | some (JValue.bool b) => b
  | some (JValue.num n) => !(n = 0)
  | some (JValue.str s) => !(s = "")
  | some (JValue.arr _) => true
  | some (JValue.obj _) => true

/-! Source: `scripts/structure-validator.js`, class `StructureValidator`. -/

namespace StructureValidator

/-- The front-matter fields `validateTopicFile` reads from a topic file
(via `gray-matter`); `none` models an absent key. -/
structure TopicFrontmatter where
  title : Option String
  description : Option String
  module : Option Int
  category : Option String
  slug : Option String
  difficulty : Option String
  authorId : Option String

/-- One `addError`/`addWarning` message of the structure validator,
represented structurally (each constructor records the data its template
string interpolates). -/
inductive SVMsg where
  | missingTopicField (field : String) (path : String)
  | badModuleNumber (module : Int) (path : String)
  | configMissing
  | configParseError
  | missingConfigSection (sec : String)
  | dupSlug (slug : Option JValue)
  | missingCatField (field : String) (slug : Option JValue)

/-- The `requiredFields` loop data of `validateTopicFile`, in source order,
each with its JS truthiness. -/
def requiredTopicFields (fm : TopicFrontmatter) : List (String × Bool) :=
  [("title", truthyStr fm.title), ("description", truthyStr fm.description),
   ("module", truthyNum fm.module), ("category", truthyStr fm.category),
   ("slug", truthyStr fm.slug), ("difficulty", truthyStr fm.difficulty),
   ("authorId", truthyStr fm.authorId)]

/-- `StructureValidator.validateTopicFile` on a successfully read topic
file: an error for each falsy required front-matter field, and a warning
when `frontmatter.module && (frontmatter.module < 1 || frontmatter.module > 79)`
— the range is the fixed global 1..79, truthiness skips `module: 0`.
Returns `(errors, warnings)`. -/
def validateTopicFile (fm : TopicFrontmatter) (path : String) :
    List SVMsg × List SVMsg :=
  ((requiredTopicFields fm).filterMap fun ft =>
      if ft.2 then none else some (SVMsg.missingTopicField ft.1 path),
   match fm.module with
   | some m =>
     if !(m = 0) && (m < 1 || 79 < m) then [SVMsg.badModuleNumber m path] else []
   | none => [])

/-- `category.slug` in the `validateConfiguration` loop: `undefined` unless
the entry is an object with that key (the `null` entry, which would throw,
is handled by `checkCategoriesAux`). -/
def catSlug : JValue → Option JValue
  | JValue.obj fs => getField fs "slug"
  | _ => none

/-- `category[f]` for the required-field loop of `validateConfiguration`. -/
def catField (c : JValue) (f : String) : Option JValue :=
  match c with
  | JValue.obj fs => getField fs f
  | _ => none

/-- The category required-field loop data (`['slug', 'titleRu', 'modules',
'difficulty']`), each with its JS truthiness. -/
def catRequiredFields (c : JValue) : List (String × Bool) :=
  [("slug", truthyJ (catField c "slug")),
   ("titleRu", truthyJ (catField c "titleRu")),
   ("modules", truthyJ (catField c "modules")),
   ("difficulty", truthyJ (catField c "difficulty"))]

/-- JS `Set` equality (SameValueZero) for the possible values of
`category.slug` stored by the duplicate check: primitives compare by value;
distinct parsed objects/arrays are distinct references and never compare
equal. -/
def slugEq : Option JValue → Option JValue → Bool
  | none, none => true
  | some JValue.null, some JValue.null => true
  | some (JValue.bool a), some (JValue.bool b) => a = b
  | some (JValue.num a), some (JValue.num b) => a = b
  | some (JValue.str a), some (JValue.str b) => a = b
  | _, _ => false

/-- The category loop of `validateConfiguration`: for each entry, an error
if its slug is already in the `slugs` set, then the slug is added, then an
error per falsy required field.  A `null` entry makes the property access
throw; the exception is caught by the surrounding `catch`, which records the
parse-error message and abandons the rest of the loop. -/
def checkCategoriesAux : List JValue → List (Option JValue) → List SVMsg
  | [], _ => []
  | JValue.null :: _, _ => [SVMsg.configParseError]
  | c :: cs, seen =>
    (if seen.any (slugEq (catSlug c)) then [SVMsg.dupSlug (catSlug c)] else []) ++
    ((catRequiredFields c).filterMap fun ft =>
      if ft.2 then none else some (SVMsg.missingCatField ft.1 (catSlug c))) ++
    checkCategoriesAux cs (catSlug c :: seen)

/-- How the `content.config.json` read inside `validateConfiguration` went. -/
inductive ConfigRead where
  | missing
  | unparsable
  | parsed (v : JValue)

/-- `StructureValidator.validateConfiguration`: an error when the file is
absent or unparsable; otherwise an error per falsy required section
(`structure`, `categories`, `quality`, `godojo`, in source order), then —
when `categories` is an array (arrays are always truthy) — the category
loop. -/
def validateConfiguration (read : ConfigRead) : List SVMsg :=
  match read with
  | ConfigRead.missing => [SVMsg.configMissing]
  | ConfigRead.unparsable => [SVMsg.configParseError]
  | ConfigRead.parsed v =>
    (["structure", "categories", "quality", "godojo"].filterMap fun sec =>
      if truthyJ (topField v sec) then none
      else some (SVMsg.missingConfigSection sec)) ++
    (match topField v "categories" with
     | some (JValue.arr xs) => checkCategoriesAux xs []
     | _ => [])

/-- What one `StructureValidator.run` invocation produces: the configuration
check is embedded concretely; the findings of the other four phases — root
structure and content structure run before it, the warning-only naming and
integrity phases after it — enter as inputs in their source order. -/
structure RunWorld where
  preErrors : List SVMsg
  preWarnings : List SVMsg
  configRead : ConfigRead
  postWarnings : List SVMsg

/-- Outcome of a run: accumulated findings and the process exit code. -/
structure RunResult where
  errors : List SVMsg
  warnings : List SVMsg
  exitCode : Nat

/-- `StructureValidator.run`: the five validation phases accumulate
`this.errors` / `this.warnings`, and the process exits with
`this.errors.length > 0 ? 1 : 0`. -/
def run (w : RunWorld) : RunResult :=
  let errors := w.preErrors ++ validateConfiguration w.configRead
  { errors := errors,
    warnings := w.preWarnings ++ w.postWarnings,
    exitCode := if 0 < errors.length then 1 else 0 }

/-- Proof artifact: the `slugs` set accumulated by the category loop after
walking a prefix of entries (newest at the head). -/
def walkSeen : List JValue → List (Option JValue) → List (Option JValue)
  | [], seen => seen
  | c :: cs, seen => walkSeen cs (catSlug c :: seen)

/-- A well-formed category entry with slug `basics` (first copy). -/
def dupCatA : JValue :=
  JValue.obj
    [("slug", JValue.str "basics"), ("titleRu", JValue.str "Основы Go"),
     ("modules", JValue.str "1-15"), ("difficulty", JValue.str "Beginner")]

/-- A second category entry carrying the same slug `basics`. -/
def dupCatB : JValue :=
  JValue.obj
    [("slug", JValue.str "basics"), ("titleRu", JValue.str "Основы Go 2"),
     ("modules", JValue.str "16-30"), ("difficulty", JValue.str "Beginner")]

/-- A configuration whose `categories` array repeats the slug `basics`. -/
def cfgDupSlug : JValue :=
  JValue.obj
    [("structure", JValue.obj [("defaultLanguage", JValue.str "ru")]),
     ("categories", JValue.arr [dupCatA, dupCatB]),
     ("quality", JValue.obj [("minWords", JValue.num 800)]),
     ("godojo", JValue.obj [("platform", JValue.str "godojo.dev")])]

/-- A run world reading `cfgDupSlug` with no findings from the other
phases. -/
def dupSlugWorld : RunWorld :=
  { preErrors := [], preWarnings := [],
    configRead := ConfigRead.parsed cfgDupSlug, postWarnings := [] }

/-- A concrete structure-validator run world (missing configuration file,
no other findings). -/
def svWorld0 : RunWorld :=
  { preErrors := [], preWarnings := [],
    configRead := ConfigRead.missing, postWarnings := [] }

end StructureValidator

/-! Source: `part_003`, `ConfigSchema` (a `zod` schema) and
`ConfigManager.loadConfig`.  The error-message strings paraphrase the zod
issue paths; the claims depend on their presence and number, not their
wording. -/

namespace ConfigManager

/-- zod `z.string()` as a predicate. -/
def isStr : JValue → Bool
  | JValue.str _ => true
  | _ => false

/-- Issues of a required `z.string()` field. -/
def reqStrErrs (v : Option JValue) (p : String) : List String :=
  match v with
  | some (JValue.str _) => []
  | _ => [p ++ ": Expected string"]

/-- Validity of a required `z.string()` field. -/
def isReqStr (v : Option JValue) : Bool :=
  match v with
  | some (JValue.str _) => true
  | _ => false

/-- Issues of a `z.string().optional()` field (absent is fine; a present
non-string, including `null`, is not). -/
def optStrErrs (v : Option JValue) (p : String) : List String :=
  match v with
  | none => []
  | some (JValue.str _) => []
  | some _ => [p ++ ": Expected string"]

/-- Validity of a `z.string().optional()` field. -/
def isOptStr (v : Option JValue) : Bool :=
  match v with
  | none => true
  | some (JValue.str _) => true
  | some _ => false

/-- Issues of a `z.number().positive()` field. -/
def posNumErrs (v : Option JValue) (p : String) : List String :=
  match v with
  | some (JValue.num n) =>
    if 0 < n then [] else [p ++ ": Number must be greater than 0"]
  | _ => [p ++ ": Expected number"]

/-- Validity of a `z.number().positive()` field. -/
def isPosNum (v : Option JValue) : Bool :=
  match v with
  | some (JValue.num n) => decide (0 < n)
  | _ => false

/-- Issues of the `z.enum(['Beginner', 'Intermediate', 'Advanced'])`
field. -/
def difficultyErrs (v : Option JValue) (p : String) : List String :=
  match v with
  | some (JValue.str s) =>
    if s = "Beginner" || s = "Intermediate" || s = "Advanced" then []
    else [p ++ ": Invalid enum value"]
  | _ => [p ++ ": Invalid enum value"]

/-- Validity of the difficulty enum field. -/
def isDifficulty (v : Option JValue) : Bool :=
  match v with
  | some (JValue.str s) => s = "Beginner" || s = "Intermediate" || s = "Advanced"
  | _ => false

/-- Issues of `z.array(z.string()).min(1)`. -/
def strArrayMin1Errs (v : Option JValue) (p : String) : List String :=
  match v with
  | some (JValue.arr xs) =>
    (if xs.all isStr then [] else [p ++ ": Expected string element"]) ++
    (if 1 ≤ xs.length then []
     else [p ++ ": Array must contain at least 1 element(s)"])
  | _ => [p ++ ": Expected array"]

/-- Validity of `z.array(z.string()).min(1)`. -/
def isStrArrayMin1 (v : Option JValue) : Bool :=
  match v with
  | some (JValue.arr xs) => xs.all isStr && decide (1 ≤ xs.length)
  | _ => false

/-- zod issues of the `structure` section: an object with a string
`defaultLanguage` and a non-empty string array `languages`. -/
def structureErrors (v : Option JValue) : List String :=
  match v with
  | none => ["structure: Required"]
  | some (JValue.obj fs) =>
    reqStrErrs (getField fs "defaultLanguage") "structure.defaultLanguage" ++
    strArrayMin1Errs (getField fs "languages") "structure.languages"
  | some _ => ["structure: Expected object"]

/-- zod issues of the `godojo` section: an object whose `platform` and
`apiEndpoint` are optional strings. -/
def godojoErrors (v : Option JValue) : List String :=
  match v with
  | none => ["godojo: Required"]
  | some (JValue.obj fs) =>
    optStrErrs (getField fs "platform") "godojo.platform" ++
    optStrErrs (getField fs "apiEndpoint") "godojo.apiEndpoint"
  | some _ => ["godojo: Expected object"]

/-- zod issues of one `categories` entry, fields in declaration order. -/
def categoryErrors (c : JValue) : List String :=
  match c with
  | JValue.obj fs =>
    reqStrErrs (getField fs "slug") "categories.slug" ++
    reqStrErrs (getField fs "titleRu") "categories.titleRu" ++
    optStrErrs (getField fs "titleEn") "categories.titleEn" ++
    reqStrErrs (getField fs "descriptionRu") "categories.descriptionRu" ++
    optStrErrs (getField fs "descriptionEn") "categories.descriptionEn" ++
    reqStrErrs (getField fs "modules") "categories.modules" ++
    difficultyErrs (getField fs "difficulty") "categories.difficulty" ++
    posNumErrs (getField fs "estimatedHours") "categories.estimatedHours"
  | _ => ["categories: Expected object"]

/-- zod issues of the `categories` section: an array of category objects. -/
def categoriesErrors (v : Option JValue) : List String :=
  match v with
  | none => ["categories: Required"]
  | some (JValue.arr xs) => xs.flatMap categoryErrors
  | some _ => ["categories: Expected array"]

/-- zod issues of the `quality` section: three positive numbers. -/
def qualityErrors (v : Option JValue) : List String :=
  match v with
  | none => ["quality: Required"]
  | some (JValue.obj fs) =>
    posNumErrs (getField fs "minWords") "quality.minWords" ++
    posNumErrs (getField fs "minCodeExamples") "quality.minCodeExamples" ++
    posNumErrs (getField fs "minExercises") "quality.minExercises"
  | some _ => ["quality: Expected object"]

/-- `ConfigSchema.parse`: the itemized field issues, in schema declaration
order (`structure`, `godojo`, `categories`, `quality`); parsing succeeds iff
this list is empty. -/
def schemaErrors (v : JValue) : List String :=
  match v with
  | JValue.obj fs =>
    structureErrors (getField fs "structure") ++
    godojoErrors (getField fs "godojo") ++
    categoriesErrors (getField fs "categories") ++
    qualityErrors (getField fs "quality")
  | _ => ["Expected object"]

/-- Spec-side predicate (for the amended claim): the `structure` section is
present and well-typed. -/
def structureWellTyped (v : Option JValue) : Bool :=
  match v with
  | some (JValue.obj fs) =>
    isReqStr (getField fs "defaultLanguage") &&
    isStrArrayMin1 (getField fs "languages")
  | _ => false

/-- Spec-side predicate: the `godojo` section is present and well-typed. -/
def godojoWellTyped (v : Option JValue) : Bool :=
  match v with
  | some (JValue.obj fs) =>
    isOptStr (getField fs "platform") && isOptStr (getField fs "apiEndpoint")
  | _ => false

/-- Spec-side predicate: one category entry is well-typed. -/
def categoryWellTyped (c : JValue) : Bool :=
  match c with
  | JValue.obj fs =>
    isReqStr (getField fs "slug") && isReqStr (getField fs "titleRu") &&
    isOptStr (getField fs "titleEn") && isReqStr (getField fs "descriptionRu") &&
    isOptStr (getField fs "descriptionEn") && isReqStr (getField fs "modules") &&
    isDifficulty (getField fs "difficulty") &&
    isPosNum (getField fs "estimatedHours")
  | _ => false

/-- Spec-side predicate: the `categories` section is present and
well-typed. -/
def categoriesWellTyped (v : Option JValue) : Bool :=
  match v with
  | some (JValue.arr xs) => xs.all categoryWellTyped
  | _ => false

/-- Spec-side predicate: the `quality` section is present and well-typed. -/
def qualityWellTyped (v : Option JValue) : Bool :=
  match v with
  | some (JValue.obj fs) =>
    isPosNum (getField fs "minWords") && isPosNum (getField fs "minCodeExamples") &&
    isPosNum (getField fs "minExercises")
  | _ => false

/-- Spec-side predicate: the configuration is an object whose four required
top-level sections are all present and well-typed. -/
def schemaWellTyped (v : JValue) : Bool :=
  match v with
  | JValue.obj fs =>
    structureWellTyped (getField fs "structure") &&
    godojoWellTyped (getField fs "godojo") &&
    categoriesWellTyped (getField fs "categories") &&
    qualityWellTyped (getField fs "quality")
  | _ => false

/-- How the configuration file read went before validation. -/
inductive ConfigFile where
  | absent
  | unparsable
  | parsed (v : JValue)

/-- Outcome of `ConfigManager.loadConfig`: the three distinct failure codes
(`CONFIG_NOT_FOUND` as a `ConfigError`, `CONFIG_INVALID_JSON` as a
`ConfigError`, `VALIDATION_SCHEMA_FAILED` as a `ValidationError` carrying
the itemized zod issues) or success.  The success value — the parsed,
stripped configuration object — is needed by no claim and is omitted. -/
inductive LoadResult where
  | notFound
  | invalidJSON
  | schemaInvalid (errors : List String)
  | ok
deriving DecidableEq

/-- `ConfigManager.loadConfig`: absent file, unparsable JSON and schema
violation produce the three distinct errors; otherwise the validated
configuration is returned. -/
def loadConfig : ConfigFile → LoadResult
  | ConfigFile.absent => LoadResult.notFound
  | ConfigFile.unparsable => LoadResult.invalidJSON
  | ConfigFile.parsed v =>
    match schemaErrors v with
    | [] => LoadResult.ok
    | e :: es => LoadResult.schemaInvalid (e :: es)

/-- A configuration whose `structure`, `categories` and `quality` sections
are valid JSON and well-typed but which has no `godojo` section (the
counterexample input for the loader claim). -/
def cfgNoGodojo : JValue :=
  JValue.obj
    [("structure",
      JValue.obj [("defaultLanguage", JValue.str "ru"),
                  ("languages", JValue.arr [JValue.str "ru"])]),
     ("categories", JValue.arr []),
     ("quality",
      JValue.obj [("minWords", JValue.num 800),
                  ("minCodeExamples", JValue.num 3),
                  ("minExercises", JValue.num 2)])]

end ConfigManager

/-- JS `String.prototype.trim()`: whitespace stripped from both ends. -/
def jsTrim (s : Str) : Str :=
  ((s.dropWhile jsWs).reverse.dropWhile jsWs).reverse

/-! Source: `part_004`, class `ContentBuilder`. -/

namespace ContentBuilder

/-- A match attempt of the multiline pattern `^---[\s\S]*?---` at a line start: if `---` is
here and another `---` occurs at or after index 3, the remainder after the
(lazily shortest) match; otherwise `none`. -/
def dashSpanRemoveAt (s : Str) : Option Str :=
  if dash3.isPrefixOf s then
    match firstIdxOf dash3 (s.drop 3) with
    | some i => some (s.drop (3 + i + 3))
    | none => none
  else none

/-- Core of the replace of `^---[\s\S]*?---` (multiline flag, no global flag)
with the empty string in `countWords`: with the multiline flag,
`^` matches at the start of every line, so the leftmost match starts at the
first line start carrying `---` that is followed by a closing `---` — which
need not be a leading front-matter block.  Only the first match is removed
(no global flag). -/
def stripDashSpanGo : Bool → Str → Str
  | _, [] => []
  | atStart, c :: cs =>
    if atStart then
      match dashSpanRemoveAt (c :: cs) with
      | some rest => rest
      | none => c :: stripDashSpanGo (c = '\n') cs
    else c :: stripDashSpanGo (c = '\n') cs

/-- The multiline `^---[\s\S]*?---` replacement of `countWords` (see
`stripDashSpanGo`). -/
def stripDashSpanM (s : Str) : Str := stripDashSpanGo true s

/-- `ContentBuilder.countWords`: strip fenced code blocks, then apply the
multiline front-matter regex, then count whitespace-separated words. -/
def countWords (text : Str) : Nat :=
  wordRuns (stripDashSpanM (stripFencedBlocks text))

/-- A heading match of `/^## (.+)$/m` at a line start: the captured heading
text (the non-empty remainder of the line, which `.` cannot extend past) and
the rest of the input after the match (beginning at the terminating newline,
which the match does not consume). -/
def headingAt : Str → Option (Str × Str)
  | '#' :: '#' :: ' ' :: rest =>
    let cap := rest.takeWhile (· ≠ '\n')
    if cap.isEmpty then none else some (cap, rest.drop cap.length)
  | _ => none

/-- `markdown.split(/^## (.+)$/gm)` reshaped: the segment before the first
heading, then (captured heading, following segment) pairs.  Segments keep
the newlines adjacent to the matched heading lines, as `split` leaves them
outside the match. -/
def splitSectionsGo : Nat → Bool → Str → Str × List (Str × Str)
  | 0, _, s => (s, [])
  | _ + 1, _, [] => ([], [])
  | fuel + 1, atStart, c :: cs =>
    match (if atStart then headingAt (c :: cs) else none) with
    | some capRest =>
      let tail := splitSectionsGo fuel false capRest.2
      ([], (capRest.1, tail.1) :: tail.2)
    | none =>
      let tail := splitSectionsGo fuel (c = '\n') cs
      (c :: tail.1, tail.2)

/-- The section split of `ContentBuilder.parseMarkdown`. -/
def splitSections (md : Str) : Str × List (Str × Str) :=
  splitSectionsGo md.length true md

/-- Literal `###`. -/
def hash3 : Str := ['#', '#', '#']

/-- Literal `### `. -/
def hash3sp : Str := ['#', '#', '#', ' ']

/-- Matches of `/### (.+?)\n([\s\S]*?)(?=###|$)/g` over a section: pairs of
(title, body).  The `### ` literal is not line-anchored; the title is the
non-empty remainder of its line and must be closed by a newline; the body
runs lazily up to the next `###` (at any position — a lookahead, so
scanning resumes exactly there) or the end; a failed attempt advances one
position. -/
def exampleMatchesAux : Nat → Str → List (Str × Str)
  | 0, _ => []
  | fuel + 1, s =>
    match firstIdxOf hash3sp s with
    | none => []
    | some p =>
      let rest := s.drop (p + 4)
      let title := rest.takeWhile (· ≠ '\n')
      if title.isEmpty || decide (rest.length = title.length) then
        exampleMatchesAux fuel (s.drop (p + 1))
      else
        let body := rest.drop (title.length + 1)
        match firstIdxOf hash3 body with
        | some q => (title, body.take q) :: exampleMatchesAux fuel (body.drop q)
        | none => [(title, body)]

/-- The opening of a Go fence followed by a newline (`` ```go\n ``). -/
def goFenceNl : Str := ['`', '`', '`', 'g', 'o', '\n']

/-- A newline followed by a closing fence (`` \n``` ``). -/
def nlBt3 : Str := ['\n', '`', '`', '`']

/-- The capture of the first `/```go\n([\s\S]*?)\n```/` match, if any. -/
def firstGoCode (s : Str) : Option Str :=
  match firstIdxOf goFenceNl s with
  | none => none
  | some p =>
    let rest := s.drop (p + 6)
    match firstIdxOf nlBt3 rest with
    | none => none
    | some q => some (rest.take q)

/-- `text.replace(/```go\n[\s\S]*?\n```/g, '')`. -/
def stripGoCodeBlocks : Nat → Str → Str
  | 0, s => s
  | fuel + 1, s =>
    match firstIdxOf goFenceNl s with
    | none => s
    | some p =>
      let rest := s.drop (p + 6)
      match firstIdxOf nlBt3 rest with
      | none => s
      | some q => s.take p ++ stripGoCodeBlocks fuel (rest.drop (q + 4))

/-- A `CodeExample` record of `ContentBuilder.extractCodeExamples`. -/
structure CodeExample where
  title : Str
  code : Str
  explanation : Str

/-- `ContentBuilder.extractCodeExamples`. -/
def extractCodeExamples (content : Str) : List CodeExample :=
  (exampleMatchesAux content.length content).map fun ts =>
    let exampleContent := jsTrim ts.2
    { title := jsTrim ts.1,
      code := (firstGoCode exampleContent).getD [],
      explanation :=
        jsTrim (stripGoCodeBlocks exampleContent.length exampleContent) }

/-- `parseInt` of a non-empty digit run. -/
def digitsToNat (d : Str) : Nat :=
  d.foldl (fun n c => n * 10 + (c.toNat - 48)) 0

/-- Matches of `/### Упражнение (\d+): (.+?)\n([\s\S]*?)(?=###|$)/g`:
(number, title, body) triples, with the same continuation discipline as
`exampleMatchesAux`. -/
def exerciseMatchesAux : Nat → Str → List (Nat × Str × Str)
  | 0, _ => []
  | fuel + 1, s =>
    match firstIdxOf ContentAuthor.exerciseHeader s with
    | none => []
    | some p =>
      let rest := s.drop (p + ContentAuthor.exerciseHeader.length)
      match ContentAuthor.takeDigits rest with
      | (d :: ds, ':' :: ' ' :: r2) =>
        let title := r2.takeWhile (· ≠ '\n')
        if title.isEmpty || decide (r2.length = title.length) then
          exerciseMatchesAux fuel (s.drop (p + 1))
        else
          let body := r2.drop (title.length + 1)
          match firstIdxOf hash3 body with
          | some q =>
            (digitsToNat (d :: ds), title, body.take q) ::
              exerciseMatchesAux fuel (body.drop q)
          | none => [(digitsToNat (d :: ds), title, body)]
      | _ => exerciseMatchesAux fuel (s.drop (p + 1))

/-- An `Exercise` record of `ContentBuilder.extractExercises`. -/
structure Exercise where
  number : Nat
  title : Str
  content : Str

/-- `ContentBuilder.extractExercises`. -/
def extractExercises (content : Str) : List Exercise :=
  (exerciseMatchesAux content.length content).map fun nts =>
    { number := nts.1, title := jsTrim nts.2.1, content := jsTrim nts.2.2 }

/-- The `sections` record built by `ContentBuilder.parseMarkdown`. -/
structure Sections where
  theory : Str
  examples : List CodeExample
  exercises : List Exercise
  bestPractices : Str
  commonMistakes : Str
  realWorld : Str
  summary : Str

/-- The initial (all-empty) sections record. -/
def emptySections : Sections := ⟨[], [], [], [], [], [], []⟩

/-- One arm of the `switch (heading)` in `parseMarkdown`. -/
def applySection (acc : Sections) (heading content : Str) : Sections :=
  if heading = "📚 Теоретическая часть".toList then
    { acc with theory := jsTrim content }
  else if heading = "💻 Практические примеры".toList then
    { acc with examples := extractCodeExamples content }
  else if heading = "🎯 Практические упражнения".toList then
    { acc with exercises := extractExercises content }
  else if heading = "🔧 Лучшие практики".toList then
    { acc with bestPractices := jsTrim content }
  else if heading = "⚠️ Частые ошибки".toList then
    { acc with commonMistakes := jsTrim content }
  else if heading = "🌍 Применение в реальном мире".toList then
    { acc with realWorld := jsTrim content }
  else if heading = "📝 Резюме".toList then
    { acc with summary := jsTrim content }
  else acc

/-- `ContentBuilder.parseMarkdown`. -/
def parseMarkdown (md : Str) : Sections :=
  ((splitSections md).2).foldl (fun acc hs => applySection acc hs.1 hs.2)
    emptySections

/-- The front-matter fields of a topic file that the builder reads or copies
into its output records.  (The JS object spread copies whatever keys the
YAML declares; the fields here are the topic template's schema, which the
builder's own accesses rely on.) -/
structure TopicFM where
  title : Option String
  description : Option String
  module : Option Int
  slug : Option String
  difficulty : Option String
  estimatedMinutes : Option Int
  tags : List String
  authorId : Option String
  lastUpdated : Option String

/-- The `stats` object computed in `ContentBuilder.scanTopic`. -/
structure TopicStats where
  wordCount : Nat
  codeExamples : Nat
  exercises : Nat
  readingTime : Nat

/-- One built topic record. -/
structure Topic where
  frontmatter : TopicFM
  category : String
  content : Sections
  stats : TopicStats

/-- The per-topic construction of `ContentBuilder.scanTopic` on a topic
directory holding a `topic.md`: `markdown` is the post-front-matter body
delivered by `gray-matter`; `stats.wordCount = this.countWords(markdown)`
and `stats.readingTime = Math.ceil(this.countWords(markdown) / 200)`
(the integer `(w + 199) / 200`). -/
def scanTopic (fm : TopicFM) (markdown : Str) (categorySlug : String) : Topic :=
  let parsed := parseMarkdown markdown
  { frontmatter := fm,
    category := categorySlug,
    content := parsed,
    stats :=
      { wordCount := countWords markdown,
        codeExamples := parsed.examples.length,
        exercises := parsed.exercises.length,
        readingTime := (countWords markdown + 199) / 200 } }

/-- Node `path.dirname`: the path up to (excluding) the last slash; `.` when
there is none. -/
def jsDirname (p : Str) : Str :=
  let rev := p.reverse.dropWhile (· ≠ '/')
  if rev.isEmpty then ['.'] else (rev.drop 1).reverse

/-- `path.split('/').pop()`: the last path component. -/
def lastPathComponent (p : Str) : Str :=
  (p.reverse.takeWhile (· ≠ '/')).reverse

/-- A topic directory on disk, as `scanTopic` reads it: the parsed
`topic.md` when present. -/
structure DiskTopic where
  name : String
  topicFile : Option (TopicFM × Str)

/-- A category directory on disk, as `scanCategory` reads it: the parsed
front matter of `index.md` when present (a scalar mapping), and the topic
subdirectories. -/
structure DiskCategory where
  name : String
  indexFile : Option (List (String × String))
  topics : List DiskTopic

/-- A category record accumulated in `this.categories`. -/
structure CategoryRec where
  slug : String
  data : List (String × String)
  topics : List (Option String × Option String × Option Int)

/-- The builder's mutable state (`categories` map, `topics` array, counters),
threaded explicitly. -/
structure BuildState where
  categories : List (String × CategoryRec)
  topics : List Topic
  statsCategories : Nat
  statsTopics : Nat
  statsExercises : Nat
  statsCodeExamples : Nat

/-- The empty initial state of a run. -/
def initState : BuildState := ⟨[], [], 0, 0, 0, 0⟩

/-- JS `Map.set`: overwrite in place, insert at the end otherwise. -/
def mapSet (m : List (String × CategoryRec)) (k : String) (v : CategoryRec) :
    List (String × CategoryRec) :=
  if m.any (·.1 = k) then
    m.map fun kv => if kv.1 = k then (k, v) else kv
  else m ++ [(k, v)]

/-- `this.categories.get(slug)` followed by `category.topics.push(...)`:
mutates the stored record when the key is present. -/
def mapPushTopic (m : List (String × CategoryRec)) (k : String)
    (t : Option String × Option String × Option Int) :
    List (String × CategoryRec) :=
  m.map fun kv =>
    if kv.1 = k then (kv.1, { kv.2 with topics := kv.2.topics ++ [t] }) else kv

/-- `ContentBuilder.scanTopic` as a state transition (a directory without
`topic.md` is skipped). -/
def scanTopicState (st : BuildState) (categorySlug : String) (dt : DiskTopic) :
    BuildState :=
  match dt.topicFile with
  | none => st
  | some fmmd =>
    let topic := scanTopic fmmd.1 fmmd.2 categorySlug
    { categories :=
        mapPushTopic st.categories categorySlug
          (topic.frontmatter.slug, topic.frontmatter.title,
           topic.frontmatter.module),
      topics := st.topics ++ [topic],
      statsCategories := st.statsCategories,
      statsTopics := st.statsTopics + 1,
      statsExercises := st.statsExercises + topic.content.exercises.length,
      statsCodeExamples := st.statsCodeExamples + topic.content.examples.length }

/-- `ContentBuilder.scanCategory`: note the source computes the slug as
`dirname(categoryPath).split('/').pop()` — for a path `content/<name>` this
is always `content`, not `<name>`; the embedding reproduces the
computation. -/
def scanCategoryState (st : BuildState) (dc : DiskCategory) : BuildState :=
  let slug :=
    String.mk (lastPathComponent (jsDirname ("content/" ++ dc.name).toList))
  let st1 :=
    match dc.indexFile with
    | some data =>
      { st with
        categories :=
          mapSet st.categories slug { slug := slug, data := data, topics := [] },
        statsCategories := st.statsCategories + 1 }
    | none => st
  dc.topics.foldl (fun s dt => scanTopicState s slug dt) st1

/-- One serialized per-topic output file of `generateOutput`
(`JSON.stringify(topic, null, 2)` is a function of the record, so byte
equality of outputs follows from record equality). -/
structure TopicFile where
  path : String
  record : Topic

/-- One serialized per-category YAML file of `generateOutput`. -/
structure CategoryFile where
  path : String
  record : CategoryRec

/-- `ContentBuilder.generateOutput`: one JSON file per topic under
`build/topics/<category>/<slug>.json` and one YAML file per category under
`build/categories/<slug>.yaml` (an undefined slug interpolates as
`undefined`). -/
def generateOutput (st : BuildState) : List TopicFile × List CategoryFile :=
  (st.topics.map fun t =>
    { path := "build/topics/" ++ t.category ++ "/" ++
        (t.frontmatter.slug.getD "undefined") ++ ".json",
      record := t },
   st.categories.map fun kv =>
    { path := "build/categories/" ++ kv.1 ++ ".yaml", record := kv.2 })

/-- One entry of `topics-index.json`. -/
structure TopicIndexEntry where
  slug : Option String
  title : Option String
  category : String
  module : Option Int
  difficulty : Option String
  estimatedMinutes : Option Int
  tags : List String

/-- One entry of `categories-index.json`. -/
structure CategoryIndexEntry where
  slug : String
  title : Option String
  description : Option String
  difficulty : Option String
  topicsCount : Nat

/-- Lookup in the scalar mapping of a category index file. -/
def dataGet (d : List (String × String)) (k : String) : Option String :=
  (d.find? (·.1 = k)).map (·.2)

/-- `ContentBuilder.generateIndexes`. -/
def generateIndexes (st : BuildState) :
    List TopicIndexEntry × List CategoryIndexEntry :=
  (st.topics.map fun t =>
    { slug := t.frontmatter.slug, title := t.frontmatter.title,
      category := t.category, module := t.frontmatter.module,
      difficulty := t.frontmatter.difficulty,
      estimatedMinutes := t.frontmatter.estimatedMinutes,
      tags := t.frontmatter.tags },
   st.categories.map fun kv =>
    { slug := kv.2.slug, title := dataGet kv.2.data "title",
      description := dataGet kv.2.data "description",
      difficulty := dataGet kv.2.data "difficulty",
      topicsCount := kv.2.topics.length })

/-- `config.structure.defaultLanguage` as read by `generateManifest`. -/
def configDefaultLanguage (config : JValue) : Option String :=
  match topField config "structure" with
  | some (JValue.obj fs) =>
    match getField fs "defaultLanguage" with
    | some (JValue.str s) => some s
    | _ => none
  | _ => none

/-- `Math.min(...modules)` / `Math.max(...modules)` of the manifest.  The
degenerate JS values (`Infinity` over an empty topic list, `NaN` when a
topic lacks `module`) are collapsed to `none`; the claims need only that the
range is a function of the scanned topics. -/
structure ModulesRange where
  lo : Option Int
  hi : Option Int

/-- The manifest's `structure.modulesRange` (see `ModulesRange`). -/
def modulesRangeOf (ts : List Topic) : ModulesRange :=
  let ms := ts.filterMap (·.frontmatter.module)
  if decide (ms.length = ts.length) && !ms.isEmpty then
    { lo := some (ms.foldl min (ms.headD 0)),
      hi := some (ms.foldl max (ms.headD 0)) }
  else { lo := none, hi := none }

/-- `manifest.json` of `ContentBuilder.generateManifest`; `generated` is the
run's `new Date().toISOString()`. -/
structure Manifest where
  version : String
  generated : String
  platform : String
  language : Option String
  repository : String
  statsCategories : Nat
  statsTopics : Nat
  statsExercises : Nat
  statsCodeExamples : Nat
  structureCategories : List String
  modulesRange : ModulesRange

/-- `ContentBuilder.generateManifest`. -/
def generateManifest (st : BuildState) (config : JValue) (now : String) :
    Manifest :=
  { version := "1.0.0", generated := now, platform := "godojo.dev",
    language := configDefaultLanguage config, repository := "golang-book-ru",
    statsCategories := st.statsCategories, statsTopics := st.statsTopics,
    statsExercises := st.statsExercises,
    statsCodeExamples := st.statsCodeExamples,
    structureCategories := st.categories.map (·.1),
    modulesRange := modulesRangeOf st.topics }

/-- Everything one `ContentBuilder.run` writes. -/
structure BuildOutputs where
  topicFiles : List TopicFile
  categoryFiles : List CategoryFile
  topicsIndex : List TopicIndexEntry
  categoriesIndex : List CategoryIndexEntry
  manifest : Manifest

/-- One `ContentBuilder.run` over a content tree: scan every category (in
directory order), generate the per-topic and per-category records, the two
indexes, and the manifest stamped with the run time `now`. -/
def buildRun (tree : List DiskCategory) (config : JValue) (now : String) :
    BuildOutputs :=
  let st := tree.foldl scanCategoryState initState
  { topicFiles := (generateOutput st).1,
    categoryFiles := (generateOutput st).2,
    topicsIndex := (generateIndexes st).1,
    categoriesIndex := (generateIndexes st).2,
    manifest := generateManifest st config now }

/-- Spec-side word count, following the claim's wording: the number of
whitespace-separated words of the topic body after fenced code blocks are
removed and any leading front-matter block (an anchored `---` block — the
body `gray-matter` delivers no longer has one) is stripped. -/
def specBodyWordCount (markdown : Str) : Nat :=
  wordRuns (ContentAuthor.stripAnchoredFrontmatter (stripFencedBlocks markdown))

/-- The C9 counterexample body: three words separated by two `---` lines and
containing no fenced code block and no leading front matter. -/
def c9Body : Str := "a\n---\nb\n---\nc".toList

/-- A concrete topic front matter for evaluating `scanTopic`. -/
def c9FM : TopicFM :=
  { title := some "Тема", description := some "Описание", module := some 16,
    slug := some "16-tema", difficulty := some "Beginner",
    estimatedMinutes := some 45, tags := ["golang"],
    authorId := some "author_x", lastUpdated := some "2025-01-01" }

end ContentBuilder

/-! Source: `scripts/godojo-validator.js` (second part), class
`GoDojoPrepare`. -/

namespace GoDojoPrepare

/-- The entry-point-declaration marker. -/
def pkgMainMarker : Str := "package main".toList

/-- The entry-point-function marker. -/
def funcMainMarker : Str := "func main()".toList

/-- `GoDojoPrepare.isRunnableCode`: the snippet contains both markers. -/
def isRunnableCode (code : Str) : Bool :=
  containsSub code pkgMainMarker && containsSub code funcMainMarker

/-- `code.split('\n').map(line => '    ' + line).join('\n')`. -/
def indentLines (code : Str) : Str :=
  List.intercalate ['\n']
    ((splitLines code).map fun l => ' ' :: ' ' :: ' ' :: ' ' :: l)

/-- The boilerplate of `generatePlaygroundTemplate` before the indented
snippet (the template literal's text up to the interpolation). -/
def templateHead : Str :=
  "package main\n\nimport (\n    \"fmt\"\n)\n\nfunc main() \x7b\n    ".toList

/-- `GoDojoPrepare.generatePlaygroundTemplate`: a snippet already carrying
both markers is returned as is; otherwise it is indented and wrapped in the
boilerplate. -/
def generatePlaygroundTemplate (code : Str) : Str :=
  if containsSub code pkgMainMarker && containsSub code funcMainMarker then code
  else templateHead ++ indentLines code ++ ['\n', '}']

end GoDojoPrepare

/-! Source: `scripts/godojo-validator.js` (first part), class
`GoDojoValidator`. -/

namespace GoDojoValidator

/-- One `addError`/`addWarning` message of the godojo validator for a
markdown file, represented structurally. -/
inductive GVMsg where
  | tooLarge
  | missingFrontmatter
  | missingField (field : String)
  | badDifficulty (value : String)
  | badLanguage (value : String)
  | badModule (raw : String)
  | lowWords (found : Nat)
  | fewCode (found : Nat)
  | forbiddenImport (imp : String)
  | bigCodeBlock (len : Nat)
  | dangerousPattern (idx : Nat)
  | fewExercises (found : Nat)
  | missingSection (heading : String)

/-- A message together with the offending file path. -/
structure GVFinding where
  file : String
  msg : GVMsg

/-- Whether `/for\s*{\s*}/` matches at the head: `for`, then `{` at the
first non-whitespace position, then `}` at the next non-whitespace
position. -/
def forEmptyAt : Str → Bool
  | 'f' :: 'o' :: 'r' :: rest =>
    match rest.dropWhile jsWs with
    | '{' :: r2 => (r2.dropWhile jsWs).head? = some '}'
    | _ => false
  | _ => false

/-- `/for\s*{\s*}/.test(code)`. -/
def testForEmpty : Str → Bool
  | [] => false
  | c :: cs => forEmptyAt (c :: cs) || testForEmpty cs

/-- Whether `/go\s+func/` matches at the head. -/
def goFuncAt : Str → Bool
  | 'g' :: 'o' :: rest =>
    let ws := (rest.takeWhile jsWs).length
    decide (1 ≤ ws) && "func".toList.isPrefixOf (rest.drop ws)
  | _ => false

/-- `/go\s+func/.test(code)`. -/
def testGoFunc : Str → Bool
  | [] => false
  | c :: cs => goFuncAt (c :: cs) || testGoFunc cs

/-- `this.requirements.playground.forbiddenImports`. -/
def forbiddenImports : List String := ["os/exec", "syscall", "unsafe"]

/-- `GoDojoValidator.validateCodeBlock` on the stripped code of one block:
errors for forbidden imports; warnings for an oversized block and for each
dangerous pattern, in source order. -/
def codeBlockFindings (code : Str) (path : String) :
    List GVFinding × List GVFinding :=
  ((forbiddenImports.filterMap fun imp =>
     if containsSub code ("import \"" ++ imp ++ "\"").toList ||
        containsSub code ("import " ++ imp).toList then
       some ⟨path, GVMsg.forbiddenImport imp⟩
     else none),
   (if decide (5000 < code.length) then [⟨path, GVMsg.bigCodeBlock code.length⟩]
    else []) ++
   (if containsSub code "os.Exit".toList then [⟨path, GVMsg.dangerousPattern 0⟩]
    else []) ++
   (if containsSub code "panic(".toList then [⟨path, GVMsg.dangerousPattern 1⟩]
    else []) ++
   (if testForEmpty code then [⟨path, GVMsg.dangerousPattern 2⟩] else []) ++
   (if testGoFunc code then [⟨path, GVMsg.dangerousPattern 3⟩] else []))

/-- The three headings `validateContent` requires. -/
def godojoSections : List String :=
  ["🎯 Что вы изучите", "📚 Теоретическая часть", "💻 Практические примеры"]

/-- `GoDojoValidator.validateContent` on the post-front-matter body:
word-count, code-example-count, per-block playground and exercise-count
errors; per-block and required-section warnings. -/
def validateContent (markdown : Str) (path : String) :
    List GVFinding × List GVFinding :=
  let wc := wordRuns markdown
  let blocks := ContentChecker.goBlocks markdown
  let ex := ContentAuthor.countExercises markdown
  ((if wc < 800 then [⟨path, GVMsg.lowWords wc⟩] else []) ++
   (if blocks.length < 3 then [⟨path, GVMsg.fewCode blocks.length⟩] else []) ++
   (blocks.flatMap fun b =>
     (codeBlockFindings (ContentChecker.codeOfBlock b) path).1) ++
   (if ex < 2 then [⟨path, GVMsg.fewExercises ex⟩] else []),
   (blocks.flatMap fun b =>
     (codeBlockFindings (ContentChecker.codeOfBlock b) path).2) ++
   (godojoSections.filterMap fun sec =>
     if containsSub markdown ("## " ++ sec).toList then none
     else some ⟨path, GVMsg.missingSection sec⟩))

end GoDojoValidator

end GolangBook

namespace GolangBook

open ContentAuthor

/-- C1: the word-count rule of the quality checker (the standards-driven
checker `ContentValidator`, the only checker parameterised by `minWords`)
records a blocking (error-severity) finding exactly when the word count of
the body — computed by stripping front matter, stripping fenced code blocks
and splitting on whitespace — is strictly below `minWords`; in particular a
body of exactly `minWords - 1` such words is reported and a body of exactly
`minWords` such words is not reported by that rule. -/
theorem c1_wordcount_rule_blocking_iff (std : QualityStandards) (content : Str)
    (hpos : 0 < std.minWords) :
    ((∃ n, CVError.wordCount n std.minWords ∈ validateContent std content) ↔
      countWords content < std.minWords)
    ∧ (countWords content = std.minWords - 1 →
        CVError.wordCount (std.minWords - 1) std.minWords ∈
          validateContent std content)
    ∧ (countWords content = std.minWords →
        ∀ n, CVError.wordCount n std.minWords ∉ validateContent std content) := by
  have hmem : ∀ n, CVError.wordCount n std.minWords ∈ validateContent std content ↔
      n = countWords content ∧ countWords content < std.minWords := by
    intro n
    unfold validateContent
    by_cases h1 : countWords content < std.minWords <;>
      by_cases h2 : countCodeExamples content < std.minCodeExamples <;>
        by_cases h3 : countExercises content < std.minExercises <;>
          simp [h1, h2, h3]
  refine ⟨⟨?_, ?_⟩, ?_, ?_⟩
  · rintro ⟨n, hn⟩
    exact ((hmem n).1 hn).2
  · intro hlt
    exact ⟨_, (hmem _).2 ⟨rfl, hlt⟩⟩
  · intro heq
    exact (hmem _).2 ⟨heq.symm, by omega⟩
  · intro heq n hn
    have h := ((hmem n).1 hn).2
    omega

/-- Witness for C1 at a concrete input: standards `minWords = 2` and the
two-character body `"hi"`, which has exactly `2 - 1 = 1` word. -/
theorem c1_wordcount_rule_blocking_iff_witness :
    CVError.wordCount 1 2 ∈
      validateContent ⟨2, 1, 1⟩ "hi".toList :=
  (c1_wordcount_rule_blocking_iff ⟨2, 1, 1⟩ "hi".toList (by decide)).2.1 (by decide)

/-- A `length > 0 ? 1 : 0` exit code is non-zero exactly on a non-empty
list. -/
theorem exit_of_length_ne_zero_iff {α : Type} (l : List α) :
    ((if 0 < l.length then (1 : Nat) else 0) ≠ 0) ↔ l ≠ [] := by
  cases l <;> simp

/-- C2: for the quality check and for the structure validation alike, the
process exit code is non-zero iff at least one blocking finding (an
issue/error, as opposed to an advisory warning) was recorded during the
run.  (Both `run` methods exit with `errors.length > 0 ? 1 : 0`; the
quality checker's early return on a missing `content/` directory ends the
process with code 0 and an empty issue list, so the equivalence covers it
too.) -/
theorem c2_exit_nonzero_iff_blocking (w₁ : ContentChecker.RunWorld)
    (w₂ : StructureValidator.RunWorld) :
    ((ContentChecker.run w₁).exitCode ≠ 0 ↔ (ContentChecker.run w₁).issues ≠ [])
    ∧ ((StructureValidator.run w₂).exitCode ≠ 0 ↔
        (StructureValidator.run w₂).errors ≠ []) := by
  constructor
  · by_cases h : w₁.contentExists = true
    · have h1 : (ContentChecker.run w₁).exitCode =
          if 0 < (ContentChecker.run w₁).issues.length then 1 else 0 := by
        unfold ContentChecker.run
        rw [if_pos h]
      rw [h1]
      exact exit_of_length_ne_zero_iff _
    · have h1 : (ContentChecker.run w₁).exitCode = 0 := by
        unfold ContentChecker.run
        rw [if_neg h]
      have h2 : (ContentChecker.run w₁).issues = [] := by
        unfold ContentChecker.run
        rw [if_neg h]
      rw [h1, h2]
      simp
  · exact exit_of_length_ne_zero_iff _

/-- Witness for C2 at concrete run worlds. -/
theorem c2_exit_nonzero_iff_blocking_witness :
    ((ContentChecker.run ContentChecker.ccWorld0).exitCode ≠ 0 ↔
      (ContentChecker.run ContentChecker.ccWorld0).issues ≠ [])
    ∧ ((StructureValidator.run StructureValidator.svWorld0).exitCode ≠ 0 ↔
        (StructureValidator.run StructureValidator.svWorld0).errors ≠ []) :=
  c2_exit_nonzero_iff_blocking ContentChecker.ccWorld0 StructureValidator.svWorld0

/-- C3 counterexample: a topic file declaring `module: 16` with every
required field present — the scenario's configuration declares category
`basics` with modules `1-15`, but `validateTopicFile` never consults the
configuration — produces no finding at all: no error and, contrary to the
claim, no advisory finding citing the out-of-range module number (16 lies
inside the fixed global range 1..79 that the source actually checks). -/
theorem c3_module16_produces_no_finding :
    StructureValidator.validateTopicFile
      { title := some "Тема", description := some "Описание",
        module := some 16, category := some "basics", slug := some "16-tema",
        difficulty := some "Beginner", authorId := some "author_x" }
      "content/basics/16-tema/topic.md" = ([], []) := rfl

/-- C3 amended: the Structure Validator checks the declared module number
against the fixed global range 1..79 — not against the category's declared
`modules` range — and, through JS truthiness, skips the check when `module`
is 0 or absent: an advisory warning naming the module is emitted iff the
declared module is non-zero and outside 1..79, and the module-range check
never contributes a blocking error.  A topic declaring `module: 16` under a
category declared `1-15` therefore yields no finding. -/
theorem c3_amended_module_range_advisory
    (fm : StructureValidator.TopicFrontmatter) (path : String) (m : Int) :
    (StructureValidator.SVMsg.badModuleNumber m path ∈
        (StructureValidator.validateTopicFile fm path).2 ↔
      fm.module = some m ∧ ¬m = 0 ∧ (m < 1 ∨ 79 < m))
    ∧ ∀ m' p', StructureValidator.SVMsg.badModuleNumber m' p' ∉
        (StructureValidator.validateTopicFile fm path).1 := by
  constructor
  · rcases hm : fm.module with _ | mv
    · have hred : (StructureValidator.validateTopicFile fm path).2 = [] := by
        simp only [StructureValidator.validateTopicFile, hm]
      rw [hred]
      simp only [List.not_mem_nil, false_iff, not_and]
      intro hsome
      exact Option.noConfusion hsome
    · have hred : (StructureValidator.validateTopicFile fm path).2 =
          (if !(mv = (0 : Int)) && (mv < 1 || 79 < mv) then
            [StructureValidator.SVMsg.badModuleNumber mv path]
          else []) := by
        simp only [StructureValidator.validateTopicFile, hm]
      rw [hred]
      by_cases hc : (!(mv = (0 : Int)) && (mv < 1 || 79 < mv)) = true
      · rw [if_pos hc]
        simp only [Bool.and_eq_true, Bool.not_eq_true', decide_eq_false_iff_not,
          Bool.or_eq_true, decide_eq_true_eq] at hc
        constructor
        · intro hmem
          have heq := List.mem_singleton.1 hmem
          have hm' : m = mv := by cases heq; rfl
          subst hm'
          exact ⟨rfl, hc.1, hc.2⟩
        · rintro ⟨hsome, -, -⟩
          have : mv = m := Option.some.inj hsome
          subst this
          exact List.mem_singleton_self _
      · rw [if_neg hc]
        simp only [List.not_mem_nil, false_iff]
        rintro ⟨hsome, h0, hr⟩
        have : mv = m := Option.some.inj hsome
        subst this
        apply hc
        simp only [Bool.and_eq_true, Bool.not_eq_true', decide_eq_false_iff_not,
          Bool.or_eq_true, decide_eq_true_eq]
        exact ⟨h0, hr⟩
  · intro m' p' hmem
    have hmem' : StructureValidator.SVMsg.badModuleNumber m' p' ∈
        (StructureValidator.requiredTopicFields fm).filterMap fun ft =>
          if ft.2 then none
          else some (StructureValidator.SVMsg.missingTopicField ft.1 path) := hmem
    rcases List.mem_filterMap.1 hmem' with ⟨ft, -, hft⟩
    by_cases h : ft.2 = true <;> simp [h] at hft

/-- Witness for the amended C3: a topic declaring `module: 80` receives the
advisory module-range warning. -/
theorem c3_amended_module_range_advisory_witness :
    StructureValidator.SVMsg.badModuleNumber 80 "content/x/topic.md" ∈
      (StructureValidator.validateTopicFile
        { title := some "Тема", description := some "Описание",
          module := some 80, category := some "web", slug := some "80-tema",
          difficulty := some "Advanced", authorId := some "author_x" }
        "content/x/topic.md").2 :=
  (c3_amended_module_range_advisory _ _ 80).1.mpr ⟨rfl, by decide, by decide⟩

/-- A required-string field has no zod issue iff it is valid. -/
theorem reqStrErrs_nil_iff (v : Option JValue) (p : String) :
    ConfigManager.reqStrErrs v p = [] ↔ ConfigManager.isReqStr v = true := by
  unfold ConfigManager.reqStrErrs ConfigManager.isReqStr
  rcases v with _ | j
  · simp
  · cases j <;> simp

/-- An optional-string field has no zod issue iff it is valid. -/
theorem optStrErrs_nil_iff (v : Option JValue) (p : String) :
    ConfigManager.optStrErrs v p = [] ↔ ConfigManager.isOptStr v = true := by
  unfold ConfigManager.optStrErrs ConfigManager.isOptStr
  rcases v with _ | j
  · simp
  · cases j <;> simp

/-- A positive-number field has no zod issue iff it is valid. -/
theorem posNumErrs_nil_iff (v : Option JValue) (p : String) :
    ConfigManager.posNumErrs v p = [] ↔ ConfigManager.isPosNum v = true := by
  unfold ConfigManager.posNumErrs ConfigManager.isPosNum
  rcases v with _ | j
  · simp
  · cases j <;> simp

/-- The difficulty enum field has no zod issue iff it is valid. -/
theorem difficultyErrs_nil_iff (v : Option JValue) (p : String) :
    ConfigManager.difficultyErrs v p = [] ↔ ConfigManager.isDifficulty v = true := by
  unfold ConfigManager.difficultyErrs ConfigManager.isDifficulty
  rcases v with _ | j
  · simp
  · cases j <;> simp
    tauto

/-- The non-empty string array has no zod issue iff it is valid. -/
theorem strArrayMin1Errs_nil_iff (v : Option JValue) (p : String) :
    ConfigManager.strArrayMin1Errs v p = [] ↔
      ConfigManager.isStrArrayMin1 v = true := by
  unfold ConfigManager.strArrayMin1Errs ConfigManager.isStrArrayMin1
  rcases v with _ | j
  · simp
  · cases j <;> simp
    rename_i xs
    intro _
    cases xs <;> simp

/-- The `structure` section has no zod issue iff it is present and
well-typed. -/
theorem structureErrors_nil_iff (v : Option JValue) :
    ConfigManager.structureErrors v = [] ↔
      ConfigManager.structureWellTyped v = true := by
  unfold ConfigManager.structureErrors ConfigManager.structureWellTyped
  rcases v with _ | j
  · simp
  · cases j <;> simp
    rw [reqStrErrs_nil_iff, strArrayMin1Errs_nil_iff]

/-- The `godojo` section has no zod issue iff it is present and
well-typed. -/
theorem godojoErrors_nil_iff (v : Option JValue) :
    ConfigManager.godojoErrors v = [] ↔
      ConfigManager.godojoWellTyped v = true := by
  unfold ConfigManager.godojoErrors ConfigManager.godojoWellTyped
  rcases v with _ | j
  · simp
  · cases j <;> simp
    rw [optStrErrs_nil_iff, optStrErrs_nil_iff]

/-- One category entry has no zod issue iff it is well-typed. -/
theorem categoryErrors_nil_iff (c : JValue) :
    ConfigManager.categoryErrors c = [] ↔
      ConfigManager.categoryWellTyped c = true := by
  unfold ConfigManager.categoryErrors ConfigManager.categoryWellTyped
  cases c <;> simp
  rw [reqStrErrs_nil_iff, reqStrErrs_nil_iff, optStrErrs_nil_iff,
    reqStrErrs_nil_iff, optStrErrs_nil_iff, reqStrErrs_nil_iff,
    difficultyErrs_nil_iff, posNumErrs_nil_iff]
  tauto

/-- The `categories` section has no zod issue iff it is present and
well-typed. -/
theorem categoriesErrors_nil_iff (v : Option JValue) :
    ConfigManager.categoriesErrors v = [] ↔
      ConfigManager.categoriesWellTyped v = true := by
  unfold ConfigManager.categoriesErrors ConfigManager.categoriesWellTyped
  rcases v with _ | j
  · simp
  · cases j <;> simp
    constructor
    · intro h x hx
      exact (categoryErrors_nil_iff x).1 (h x hx)
    · intro h x hx
      exact (categoryErrors_nil_iff x).2 (h x hx)

/-- The `quality` section has no zod issue iff it is present and
well-typed. -/
theorem qualityErrors_nil_iff (v : Option JValue) :
    ConfigManager.qualityErrors v = [] ↔
      ConfigManager.qualityWellTyped v = true := by
  unfold ConfigManager.qualityErrors ConfigManager.qualityWellTyped
  rcases v with _ | j
  · simp
  · cases j <;> simp
    rw [posNumErrs_nil_iff, posNumErrs_nil_iff, posNumErrs_nil_iff]
    tauto

/-- The whole schema has no zod issue iff all four required sections are
present and well-typed. -/
theorem schemaErrors_nil_iff (v : JValue) :
    ConfigManager.schemaErrors v = [] ↔
      ConfigManager.schemaWellTyped v = true := by
  unfold ConfigManager.schemaErrors ConfigManager.schemaWellTyped
  cases v <;> simp
  rw [structureErrors_nil_iff, godojoErrors_nil_iff, categoriesErrors_nil_iff,
    qualityErrors_nil_iff]
  tauto

/-- C4 counterexample: a configuration that is valid JSON with well-typed
`structure`, `categories` and `quality` sections — the three sections the
claim names — is nonetheless rejected by the Config Loader with a
schema-invalid error, because the zod schema also requires a `godojo`
section. -/
theorem c4_counterexample_three_sections_insufficient :
    ConfigManager.structureWellTyped
        (topField ConfigManager.cfgNoGodojo "structure") = true
    ∧ ConfigManager.categoriesWellTyped
        (topField ConfigManager.cfgNoGodojo "categories") = true
    ∧ ConfigManager.qualityWellTyped
        (topField ConfigManager.cfgNoGodojo "quality") = true
    ∧ ConfigManager.loadConfig (ConfigManager.ConfigFile.parsed
        ConfigManager.cfgNoGodojo) =
      ConfigManager.LoadResult.schemaInvalid ["godojo: Required"] :=
  ⟨rfl, rfl, rfl, rfl⟩

/-- C4 amended: the Config Loader fails with the distinct not-found /
invalid-JSON errors when the file is absent or unparsable, and on parsed
JSON it succeeds iff all FOUR required top-level sections — `structure`,
`godojo`, `categories` and `quality` — are present and well-typed; when one
is missing or mistyped it fails with a schema-invalid error carrying the
itemized field issues. -/
theorem c4_amended_config_loader (v : JValue) :
    ConfigManager.loadConfig ConfigManager.ConfigFile.absent =
        ConfigManager.LoadResult.notFound
    ∧ ConfigManager.loadConfig ConfigManager.ConfigFile.unparsable =
        ConfigManager.LoadResult.invalidJSON
    ∧ (ConfigManager.loadConfig (ConfigManager.ConfigFile.parsed v) =
          ConfigManager.LoadResult.ok ↔
        ConfigManager.schemaWellTyped v = true)
    ∧ (¬ConfigManager.schemaWellTyped v = true →
        ConfigManager.loadConfig (ConfigManager.ConfigFile.parsed v) =
          ConfigManager.LoadResult.schemaInvalid (ConfigManager.schemaErrors v)) := by
  refine ⟨rfl, rfl, ?_, ?_⟩
  · rw [← schemaErrors_nil_iff]
    unfold ConfigManager.loadConfig
    rcases h : ConfigManager.schemaErrors v with _ | ⟨e, es⟩ <;> simp [h]
  · intro hw
    rw [← schemaErrors_nil_iff] at hw
    unfold ConfigManager.loadConfig
    rcases h : ConfigManager.schemaErrors v with _ | ⟨e, es⟩
    · exact absurd h hw
    · simp [h]

/-- Witness for the amended C4 at a concrete input: the parsed JSON value
`null` is not an object, so the loader rejects it with the itemized
schema error. -/
theorem c4_amended_config_loader_witness :
    ConfigManager.loadConfig (ConfigManager.ConfigFile.parsed JValue.null) =
      ConfigManager.LoadResult.schemaInvalid
        (ConfigManager.schemaErrors JValue.null) :=
  (c4_amended_config_loader JValue.null).2.2.2 (by decide)

/-- A prefix of `l` is a prefix of `l ++ r`. -/
theorem isPrefixOf_append_left (p l r : Str) (h : p.isPrefixOf l = true) :
    p.isPrefixOf (l ++ r) = true := by
  rw [List.isPrefixOf_iff_prefix] at h ⊢
  exact h.trans (l.prefix_append r)

/-- `containsSub` on a cons: a prefix match here or a match further on. -/
theorem containsSub_cons (c : Char) (cs p : Str) :
    containsSub (c :: cs) p = (p.isPrefixOf (c :: cs) || containsSub cs p) := by
  unfold containsSub
  show (if p.isPrefixOf (c :: cs) = true then some 0
        else (firstIdxOf p cs).map (· + 1)).isSome = _
  by_cases hp : p.isPrefixOf (c :: cs) = true
  · rw [if_pos hp, hp]
    rfl
  · have hb : p.isPrefixOf (c :: cs) = false := by
      cases hb : p.isPrefixOf (c :: cs)
      · rfl
      · exact absurd hb hp
    rw [if_neg hp, hb, Bool.false_or]
    cases hfi : firstIdxOf p cs <;> simp [hfi]

/-- A substring of `l` is a substring of `l ++ r`. -/
theorem containsSub_append_left (l r p : Str) (h : containsSub l p = true) :
    containsSub (l ++ r) p = true := by
  induction l with
  | nil =>
    have hp : p.isPrefixOf ([] : Str) = true := by
      by_contra hc
      unfold containsSub firstIdxOf at h
      rw [if_neg hc] at h
      exact absurd h (by simp)
    rcases p with _ | ⟨a, as⟩
    · rw [List.nil_append]
      cases r with
      | nil => exact h
      | cons d ds =>
        rw [containsSub_cons]
        simp [List.isPrefixOf]
    · simp [List.isPrefixOf] at hp
  | cons b bs ih =>
    rw [containsSub_cons] at h
    rw [List.cons_append, containsSub_cons]
    simp only [Bool.or_eq_true] at h
    rcases h with hp | hc
    · have hlem := isPrefixOf_append_left p (b :: bs) r hp
      rw [List.cons_append] at hlem
      rw [hlem]
      rfl
    · rw [ih hc, Bool.or_true]

/-- C6: the exporter's derived runnable flag is true iff the snippet
contains both the entry-point-declaration marker (`package main`) and the
entry-point-function marker (`func main()`); and for every snippet lacking
both markers, the emitted playground template contains both markers (the
boilerplate head supplies them). -/
theorem c6_runnable_flag_and_template (code : Str) :
    (GoDojoPrepare.isRunnableCode code = true ↔
      containsSub code GoDojoPrepare.pkgMainMarker = true ∧
      containsSub code GoDojoPrepare.funcMainMarker = true)
    ∧ (containsSub code GoDojoPrepare.pkgMainMarker = false →
       containsSub code GoDojoPrepare.funcMainMarker = false →
        containsSub (GoDojoPrepare.generatePlaygroundTemplate code)
          GoDojoPrepare.pkgMainMarker = true ∧
        containsSub (GoDojoPrepare.generatePlaygroundTemplate code)
          GoDojoPrepare.funcMainMarker = true) := by
  constructor
  · unfold GoDojoPrepare.isRunnableCode
    exact Iff.of_eq (Bool.and_eq_true _ _)
  · intro h1 h2
    unfold GoDojoPrepare.generatePlaygroundTemplate
    rw [h1]
    simp only [Bool.false_and, Bool.false_eq_true, if_false]
    constructor <;>
      exact containsSub_append_left _ _ _
        (containsSub_append_left _ _ _ (by decide))

/-- Witness for C6 at a concrete snippet lacking both markers. -/
theorem c6_runnable_flag_and_template_witness :
    containsSub (GoDojoPrepare.generatePlaygroundTemplate "x := 1".toList)
      GoDojoPrepare.pkgMainMarker = true ∧
    containsSub (GoDojoPrepare.generatePlaygroundTemplate "x := 1".toList)
      GoDojoPrepare.funcMainMarker = true :=
  (c6_runnable_flag_and_template "x := 1".toList).2 (by decide) (by decide)

/-- C7: running the Builder twice over an unchanged content tree and
configuration produces identical per-topic records, per-category records and
index files, and manifests equal after clearing the time-stamped `generated`
field.  Equality of the structured records gives byte identity of the
written files, `JSON.stringify`/`yaml.stringify` being functions of the
records. -/
theorem c7_builder_idempotent (tree : List ContentBuilder.DiskCategory)
    (config : JValue) (t₁ t₂ : String) :
    (ContentBuilder.buildRun tree config t₁).topicFiles =
        (ContentBuilder.buildRun tree config t₂).topicFiles
    ∧ (ContentBuilder.buildRun tree config t₁).categoryFiles =
        (ContentBuilder.buildRun tree config t₂).categoryFiles
    ∧ (ContentBuilder.buildRun tree config t₁).topicsIndex =
        (ContentBuilder.buildRun tree config t₂).topicsIndex
    ∧ (ContentBuilder.buildRun tree config t₁).categoriesIndex =
        (ContentBuilder.buildRun tree config t₂).categoriesIndex
    ∧ { (ContentBuilder.buildRun tree config t₁).manifest with generated := "" } =
        { (ContentBuilder.buildRun tree config t₂).manifest with generated := "" } :=
  ⟨rfl, rfl, rfl, rfl, rfl⟩

/-- C8: a document whose front matter is missing any of `title`,
`description`, `authorId` or `category` yields at least one blocking finding
(an issue) referencing that document's path. -/
theorem c8_missing_required_field_blocking (fm : ContentChecker.Frontmatter)
    (md : Str) (path : String) (le uv : String → Bool)
    (h : fm.title = none ∨ fm.description = none ∨ fm.authorId = none ∨
      fm.category = none) :
    ∃ f ∈ (ContentChecker.checkFile path (Except.ok (fm, md)) le uv).1,
      f.file = path := by
  have key : ∀ name v, (name, v) ∈ ContentChecker.requiredFields fm →
      v = none →
      (⟨path, ContentChecker.Msg.missingField name⟩ : ContentChecker.Finding) ∈
        (ContentChecker.checkFile path (Except.ok (fm, md)) le uv).1 := by
    intro name v hmem hv
    show (⟨path, ContentChecker.Msg.missingField name⟩ : ContentChecker.Finding) ∈
      (ContentChecker.checkFrontmatter fm path).1 ++
        (ContentChecker.checkContent md path).1 ++
        (ContentChecker.checkStructure md path).1 ++
        (ContentChecker.checkCodeExamples md path).1 ++
        (ContentChecker.checkLinks md path le uv).1
    apply List.mem_append_left
    apply List.mem_append_left
    apply List.mem_append_left
    apply List.mem_append_left
    refine List.mem_filterMap.2 ⟨(name, v), hmem, ?_⟩
    subst hv
    rfl
  rcases h with h | h | h | h
  · exact ⟨_, key "title" fm.title (by simp [ContentChecker.requiredFields]) h,
      rfl⟩
  · exact ⟨_, key "description" fm.description
      (by simp [ContentChecker.requiredFields]) h, rfl⟩
  · exact ⟨_, key "authorId" fm.authorId
      (by simp [ContentChecker.requiredFields]) h, rfl⟩
  · exact ⟨_, key "category" fm.category
      (by simp [ContentChecker.requiredFields]) h, rfl⟩

/-- Witness for C8: a concrete document lacking `title`. -/
theorem c8_missing_required_field_blocking_witness :
    ∃ f ∈ (ContentChecker.checkFile "content/basics/index.md"
        (Except.ok
          ({ title := none, description := some "Описание категории",
             authorId := some "author_x", category := some "basics",
             estimatedMinutes := none }, "Тело документа".toList))
        (fun _ => true) (fun _ => true)).1,
      f.file = "content/basics/index.md" :=
  c8_missing_required_field_blocking _ _ _ _ _ (Or.inl rfl)

/-- C9 counterexample: on the body `"a\n---\nb\n---\nc"` — which has no
fenced code block and no leading front-matter block — the builder computes
`stats.wordCount = 2`, because the multiline front-matter regex removes the
mid-body span between the two `---` lines, whereas the count the claim
describes (strip fenced code blocks and any leading front matter, split on
whitespace) is 5. -/
theorem c9_counterexample_wordcount :
    (ContentBuilder.scanTopic ContentBuilder.c9FM ContentBuilder.c9Body
        "content").stats.wordCount = 2
    ∧ ContentBuilder.specBodyWordCount ContentBuilder.c9Body = 5
    ∧ (2 : Nat) ≠ 5 := ⟨rfl, rfl, by decide⟩

/-- C9 amended: `stats.readingTime` equals the ceiling of
`stats.wordCount / 200` — stated through the source's `(w + 199) / 200` form
and pinned down by the least-multiple bounds — and `stats.wordCount` equals
the count the claim describes whenever the multiline `---` strip and the
leading front-matter strip are both inert on the (code-stripped) body; in
general the builder additionally removes the first `---`-delimited span
found at any line start. -/
theorem c9_amended_reading_time (fm : ContentBuilder.TopicFM) (markdown : Str)
    (cat : String) :
    ((ContentBuilder.scanTopic fm markdown cat).stats.readingTime =
        ((ContentBuilder.scanTopic fm markdown cat).stats.wordCount + 199) / 200)
    ∧ ((ContentBuilder.scanTopic fm markdown cat).stats.wordCount ≤
        200 * (ContentBuilder.scanTopic fm markdown cat).stats.readingTime)
    ∧ (200 * (ContentBuilder.scanTopic fm markdown cat).stats.readingTime <
        (ContentBuilder.scanTopic fm markdown cat).stats.wordCount + 200)
    ∧ (ContentBuilder.stripDashSpanM (stripFencedBlocks markdown) =
          stripFencedBlocks markdown →
       ContentAuthor.stripAnchoredFrontmatter (stripFencedBlocks markdown) =
          stripFencedBlocks markdown →
        (ContentBuilder.scanTopic fm markdown cat).stats.wordCount =
          ContentBuilder.specBodyWordCount markdown) := by
  have hw : (ContentBuilder.scanTopic fm markdown cat).stats.wordCount =
      ContentBuilder.countWords markdown := rfl
  have hr : (ContentBuilder.scanTopic fm markdown cat).stats.readingTime =
      (ContentBuilder.countWords markdown + 199) / 200 := rfl
  refine ⟨rfl, ?_, ?_, ?_⟩
  · rw [hw, hr]
    omega
  · rw [hw, hr]
    omega
  · intro h1 h2
    rw [hw]
    show wordRuns (ContentBuilder.stripDashSpanM (stripFencedBlocks markdown)) = _
    rw [h1]
    show _ = wordRuns
      (ContentAuthor.stripAnchoredFrontmatter (stripFencedBlocks markdown))
    rw [h2]

/-- Witness for the amended C9 at a concrete body on which both strips are
inert. -/
theorem c9_amended_reading_time_witness :
    (ContentBuilder.scanTopic ContentBuilder.c9FM "привет мир".toList
        "content").stats.wordCount =
      ContentBuilder.specBodyWordCount "привет мир".toList :=
  (c9_amended_reading_time ContentBuilder.c9FM "привет мир".toList
    "content").2.2.2 (by decide) (by decide)

/-- Unfolding of the category loop of `validateConfiguration` on a non-null
head entry. -/
theorem checkCategoriesAux_cons_ne_null (c : JValue) (cs : List JValue)
    (seen : List (Option JValue)) (hc : c ≠ JValue.null) :
    StructureValidator.checkCategoriesAux (c :: cs) seen =
      (if seen.any (StructureValidator.slugEq (StructureValidator.catSlug c))
       then [StructureValidator.SVMsg.dupSlug (StructureValidator.catSlug c)]
       else []) ++
      ((StructureValidator.catRequiredFields c).filterMap fun ft =>
        if ft.2 then none
        else some (StructureValidator.SVMsg.missingCatField ft.1
          (StructureValidator.catSlug c))) ++
      StructureValidator.checkCategoriesAux cs
        (StructureValidator.catSlug c :: seen) := by
  cases c
  case null => exact absurd rfl hc
  all_goals rfl

/-- If the `slugs` set already holds `s` and a later entry (reachable
through non-null predecessors) carries slug `s`, the category loop records
the duplicate-slug error. -/
theorem dupSlug_mem_checkCategoriesAux (la : List JValue) (c : JValue)
    (lb : List JValue) (seen : List (Option JValue)) (s : String)
    (hla : ∀ x ∈ la, x ≠ JValue.null)
    (hc : StructureValidator.catSlug c = some (JValue.str s))
    (hseen : seen.any
      (StructureValidator.slugEq (some (JValue.str s))) = true) :
    StructureValidator.SVMsg.dupSlug (some (JValue.str s)) ∈
      StructureValidator.checkCategoriesAux (la ++ c :: lb) seen := by
  induction la generalizing seen with
  | nil =>
    have hcn : c ≠ JValue.null := by
      intro h
      rw [h] at hc
      simp [StructureValidator.catSlug] at hc
    rw [List.nil_append, checkCategoriesAux_cons_ne_null c lb seen hcn, hc,
      if_pos hseen]
    apply List.mem_append_left
    apply List.mem_append_left
    exact List.mem_singleton_self _
  | cons x xs ih =>
    have hx : x ≠ JValue.null := hla x (List.mem_cons_self x xs)
    rw [List.cons_append,
      checkCategoriesAux_cons_ne_null x (xs ++ c :: lb) seen hx]
    apply List.mem_append_right
    exact ih (StructureValidator.catSlug x :: seen)
      (fun y hy => hla y (List.mem_cons_of_mem x hy))
      (by simp [List.any_cons, hseen])

/-- `walkSeen` distributes over list append. -/
theorem walkSeen_append (a b : List JValue) (seen : List (Option JValue)) :
    StructureValidator.walkSeen (a ++ b) seen =
      StructureValidator.walkSeen b (StructureValidator.walkSeen a seen) := by
  induction a generalizing seen with
  | nil => rfl
  | cons x xs ih => exact ih _

/-- Membership in the loop over a tail, lifted along a non-null prefix. -/
theorem mem_checkCategoriesAux_of_mem_walk (la tail : List JValue)
    (seen : List (Option JValue)) (target : StructureValidator.SVMsg)
    (hla : ∀ x ∈ la, x ≠ JValue.null)
    (h : target ∈ StructureValidator.checkCategoriesAux tail
      (StructureValidator.walkSeen la seen)) :
    target ∈ StructureValidator.checkCategoriesAux (la ++ tail) seen := by
  induction la generalizing seen with
  | nil => exact h
  | cons x xs ih =>
    have hx : x ≠ JValue.null := hla x (List.mem_cons_self x xs)
    rw [List.cons_append,
      checkCategoriesAux_cons_ne_null x (xs ++ tail) seen hx]
    apply List.mem_append_right
    exact ih (StructureValidator.catSlug x :: seen)
      (fun y hy => hla y (List.mem_cons_of_mem x hy)) h

/-- C10: when the configuration's categories array contains two entries with
the same slug (with no null entry before the second, which would abort the
loop by exception), the Structure Validator records a blocking error naming
the duplicated slug, and the validation run exits non-zero. -/
theorem c10_duplicate_slug_blocking (w : StructureValidator.RunWorld)
    (v : JValue) (xs l₁ l₂ l₃ : List JValue) (c₁ c₂ : JValue) (s : String)
    (hw : w.configRead = StructureValidator.ConfigRead.parsed v)
    (hcats : topField v "categories" = some (JValue.arr xs))
    (hxs : xs = l₁ ++ c₁ :: l₂ ++ c₂ :: l₃)
    (hnn : ∀ x ∈ l₁ ++ l₂, x ≠ JValue.null)
    (h₁ : StructureValidator.catSlug c₁ = some (JValue.str s))
    (h₂ : StructureValidator.catSlug c₂ = some (JValue.str s)) :
    StructureValidator.SVMsg.dupSlug (some (JValue.str s)) ∈
        (StructureValidator.run w).errors
    ∧ (StructureValidator.run w).exitCode = 1 := by
  have hc₁ : c₁ ≠ JValue.null := by
    intro h
    rw [h] at h₁
    simp [StructureValidator.catSlug] at h₁
  have hmem0 : StructureValidator.SVMsg.dupSlug (some (JValue.str s)) ∈
      StructureValidator.checkCategoriesAux xs [] := by
    have hre : xs = (l₁ ++ [c₁]) ++ (l₂ ++ c₂ :: l₃) := by
      rw [hxs]
      simp
    rw [hre]
    apply mem_checkCategoriesAux_of_mem_walk
    · intro x hx
      rcases List.mem_append.1 hx with hx | hx
      · exact hnn x (List.mem_append_left _ hx)
      · rw [List.mem_singleton.1 hx]
        exact hc₁
    · apply dupSlug_mem_checkCategoriesAux l₂ c₂ l₃ _ s
        (fun x hx => hnn x (List.mem_append_right _ hx)) h₂
      rw [walkSeen_append]
      show (StructureValidator.catSlug c₁ ::
        StructureValidator.walkSeen l₁ []).any _ = true
      rw [List.any_cons, h₁]
      simp [StructureValidator.slugEq]
  have hcfg : StructureValidator.SVMsg.dupSlug (some (JValue.str s)) ∈
      StructureValidator.validateConfiguration
        (StructureValidator.ConfigRead.parsed v) := by
    unfold StructureValidator.validateConfiguration
    apply List.mem_append_right
    rw [hcats]
    exact hmem0
  constructor
  · show _ ∈ w.preErrors ++
      StructureValidator.validateConfiguration w.configRead
    rw [hw]
    exact List.mem_append_right _ hcfg
  · show (if 0 < (w.preErrors ++
        StructureValidator.validateConfiguration w.configRead).length
      then (1 : Nat) else 0) = 1
    rw [hw]
    have hne := List.ne_nil_of_mem (List.mem_append_right w.preErrors hcfg)
    rw [if_pos (List.length_pos.mpr hne)]

/-- Witness for C10 at the concrete configuration repeating slug
`basics`. -/
theorem c10_duplicate_slug_blocking_witness :
    StructureValidator.SVMsg.dupSlug (some (JValue.str "basics")) ∈
        (StructureValidator.run StructureValidator.dupSlugWorld).errors
    ∧ (StructureValidator.run StructureValidator.dupSlugWorld).exitCode = 1 :=
  c10_duplicate_slug_blocking StructureValidator.dupSlugWorld
    StructureValidator.cfgDupSlug
    [StructureValidator.dupCatA, StructureValidator.dupCatB]
    [] [] [] StructureValidator.dupCatA StructureValidator.dupCatB "basics"
    rfl rfl rfl (by simp) rfl rfl

end GolangBook
